import Mathlib

/-!
Verification of the gastown-publish/kimigas agent control-protocol engine
and its `run claude` launcher.

The wire/print protocol engine (Protocol Session, External Tool Registry,
Slash Command Catalog, Turn Execution Engine) is not shipped in this
repository snapshot — only its smoke tests are — so those components are
modelled from the specification.  The `run claude` launcher
(`src/kimi_cli/cli/run.py`) is embedded directly from its source.
-/

namespace Kimigas

/-! ## External tool descriptors and the registry (spec §3, §4.3) -/

/-- A property inside a tool parameter schema: a field name and its type. -/
structure PropertySpec where
  name : String
  type : String
deriving DecidableEq, Repr

/-- Modelled from the spec: an `ExternalToolDescriptor` parameter schema, a
"structured object describing required/optional fields". -/
structure ParamSchema where
  type : String
  properties : List PropertySpec
  required : List String
deriving DecidableEq, Repr

/-- Modelled from the spec: `ExternalToolDescriptor` — name (unique within a
session), human description, parameter schema. -/
structure ExternalToolDescriptor where
  name : String
  description : String
  parameters : ParamSchema
deriving DecidableEq, Repr

/-- Modelled from the spec: a parameter schema is a well-formed
structured-object description when its type is "object" and every required
field is among the declared properties. -/
def schemaWellFormed (s : ParamSchema) : Bool :=
  s.type == "object" &&
    s.required.all (fun r => s.properties.any (fun p => p.name == r))

/-- Modelled from the spec: the built-in `SlashCommand` catalog entry. -/
structure SlashCommand where
  name : String
  description : String
deriving DecidableEq, Repr

/-- Modelled from the spec: the static, read-only Slash Command Catalog
(spec §4.4 names "help", "compact", "clear" as built-in commands). -/
def slashCommandCatalog : List SlashCommand :=
  [⟨"help", "show available commands"⟩,
   ⟨"compact", "compact the conversation context"⟩,
   ⟨"clear", "clear the conversation"⟩]

/-- Modelled from the spec: names reserved by built-in capabilities; a tool
descriptor colliding with one is rejected (spec §4.3).  The exact taxonomy is
an open question in the spec (§9); the built-in command names are used. -/
def reservedToolNames : List String :=
  slashCommandCatalog.map (fun c => c.name)

/-- Modelled from the spec: validation of one candidate descriptor within a
batch (spec §4.3): `none` when accepted, `some reason` when rejected.  The
name must be non-empty and unique within the batch, must not collide with a
reserved built-in name, and the schema must be well formed. -/
def validateTool (batch : List ExternalToolDescriptor)
    (t : ExternalToolDescriptor) : Option String :=
  if t.name = "" then some "empty name"
  else if batch.countP (fun u => u.name == t.name) ≠ 1 then
    some "duplicate name"
  else if t.name ∈ reservedToolNames then some "reserved name"
  else if schemaWellFormed t.parameters then none
  else some "malformed schema"

/-- A candidate is accepted when validation yields no rejection reason. -/
def toolAccepted (batch : List ExternalToolDescriptor)
    (t : ExternalToolDescriptor) : Bool :=
  (validateTool batch t).isNone

/-- Modelled from the spec: the External Tool Registry handshake validation:
two lists — accepted names, and rejected names with machine-readable
reasons — that together account for every candidate exactly once. -/
def validateTools (batch : List ExternalToolDescriptor) :
    List String × List (String × String) :=
  ((batch.filter (fun t => toolAccepted batch t)).map (fun t => t.name),
   (batch.filter (fun t => !toolAccepted batch t)).map
     (fun t => (t.name, (validateTool batch t).getD "rejected")))

/-! ## Protocol Session data model (spec §3, §4.2) -/

/-- Modelled from the spec: the session state machine's states. -/
inductive SessionState where
  | Uninitialized
  | Ready
  | TurnInProgress
  | ShuttingDown
deriving DecidableEq, Repr

/-- Modelled from the spec: a Turn's lifecycle phase; `Running` is the only
non-terminal phase. -/
inductive TurnPhase where
  | Running
  | Completed
  | Cancelled
  | Failed
deriving DecidableEq, Repr

/-- A phase is terminal unless it is `Running`. -/
def TurnPhase.isTerminal : TurnPhase → Bool
  | .Running => false
  | _ => true

/-- Modelled from the spec: a Turn — id, lifecycle phase, accumulated
streamed output, cancellation flag. -/
structure Turn where
  id : Nat
  phase : TurnPhase
  output : List String
  cancelRequested : Bool
deriving DecidableEq, Repr

/-- Modelled from the spec: the Session — negotiated protocol version,
client identity, accepted/rejected external tools, the turns created so far
(newest first; the head is the active one while a turn is in progress), and
a monotonically increasing request counter used to stamp turn ids. -/
structure Session where
  state : SessionState
  negotiatedVersion : Option ℚ
  clientName : Option String
  clientVersion : Option String
  acceptedTools : List String
  rejectedTools : List (String × String)
  turns : List Turn
  requestCounter : Nat
deriving DecidableEq, Repr

/-- The session as created at process start: `Uninitialized`, empty. -/
def initialSession : Session :=
  { state := .Uninitialized
    negotiatedVersion := none
    clientName := none
    clientVersion := none
    acceptedTools := []
    rejectedTools := []
    turns := []
    requestCounter := 0 }

/-- The session's own protocol version, advertised in every handshake
(the smoke test checks it is numerically at least 1.1). -/
def sessionProtocolVersion : ℚ := 11 / 10

/-- The session's documented minimum supported protocol version. -/
def minSupportedVersion : ℚ := 11 / 10

/-- The server identity name reported in `initialize` results. -/
def serverName : String := "Kimi Code CLI"

/-- The server identity version reported in `initialize` results. -/
def serverVersion : String := "1.0.0"

/-! ## Wire requests, responses, dispatch (spec §4.2, §6, §7) -/

/-- Modelled from the spec: decoded parameters of a wire request. -/
inductive Params where
  | initP (requestedVersion : ℚ) (clientName clientVersion : String)
      (tools : List ExternalToolDescriptor)
  | promptP (content : String)
  | noParams
deriving DecidableEq, Repr

/-- Modelled from the spec: a decoded wire request — a method name keyed
into the dispatch table, plus parameters. -/
structure WireRequest where
  method : String
  params : Params
deriving DecidableEq, Repr

/-- Modelled from the spec: a wire response — an `initialize` result, an
acknowledgment, or an error envelope with code and message. -/
inductive WireResponse where
  | initResult (protocolVersion : ℚ) (server : String × String)
      (slashCommands : List SlashCommand)
      (accepted : List String) (rejected : List (String × String))
  | ack
  | error (code : Int) (message : String)
deriving DecidableEq, Repr

/-- Application error: cancel received with no turn in progress (spec §6:
code -32000). -/
def errNoTurn : WireResponse := .error (-32000) "no turn in progress"

/-- Application error: `initialize` received outside `Uninitialized`. -/
def errAlreadyInitialized : WireResponse :=
  .error (-32001) "already initialized"

/-- Application error: a method received before `initialize` completed. -/
def errNotReady : WireResponse := .error (-32002) "session is not ready"

/-- Application error: a prompt submitted while a turn is in progress. -/
def errTurnActive : WireResponse :=
  .error (-32003) "a turn is already in progress"

/-- Protocol error: unrecognized method (JSON-RPC 2.0 code -32601). -/
def errMethodNotFound : WireResponse := .error (-32601) "method not found"

/-- Protocol error: invalid parameters (JSON-RPC 2.0 code -32602). -/
def errInvalidParams : WireResponse := .error (-32602) "invalid params"

/-- The method names the session's dispatch table recognizes. -/
def recognizedMethods : List String := ["initialize", "prompt", "cancel"]

/-- Modelled from the spec: the `initialize` handler.  Only valid from
`Uninitialized`; negotiates the protocol version (always answering with the
session's own supported version, never refusing the handshake), records the
client identity, runs the External Tool Registry validation, and returns the
full result.  Outside `Uninitialized` it fails with "already initialized". -/
def handleInitialize (s : Session) (p : Params) : Session × WireResponse :=
  match s.state with
  | .Uninitialized =>
    match p with
    | .initP _requestedVersion cname cver tools =>
      ({ s with
          state := .Ready
          negotiatedVersion := some sessionProtocolVersion
          clientName := some cname
          clientVersion := some cver
          acceptedTools := (validateTools tools).1
          rejectedTools := (validateTools tools).2 },
       .initResult sessionProtocolVersion (serverName, serverVersion)
         slashCommandCatalog (validateTools tools).1 (validateTools tools).2)
    | _ => (s, errInvalidParams)
  | _ => (s, errAlreadyInitialized)

/-- Modelled from the spec: the `cancel` handler.  If a turn is in progress
it marks the active turn cancelled and acknowledges; otherwise it fails with
application error -32000 and has no side effects. -/
def handleCancel (s : Session) : Session × WireResponse :=
  match s.state with
  | .TurnInProgress =>
    ({ s with
        turns :=
          match s.turns with
          | [] => []
          | t :: rest => { t with cancelRequested := true } :: rest },
     .ack)
  | _ => (s, errNoTurn)

/-- Modelled from the spec: the prompt/turn-submission handler.  Valid only
from `Ready`: creates a new `Running` turn and moves to `TurnInProgress`.
Before `initialize` it fails with a not-ready error; during a turn it fails
with an application error. -/
def handlePrompt (s : Session) (p : Params) : Session × WireResponse :=
  match s.state with
  | .Ready =>
    match p with
    | .promptP _content =>
      ({ s with
          state := .TurnInProgress
          turns :=
            { id := s.requestCounter
              phase := .Running
              output := []
              cancelRequested := false } :: s.turns
          requestCounter := s.requestCounter + 1 },
       .ack)
    | _ => (s, errInvalidParams)
  | .TurnInProgress => (s, errTurnActive)
  | _ => (s, errNotReady)

/-- Modelled from the spec: the Protocol Session dispatch table, keyed on
the method name; any unrecognized method fails with -32601 independent of
session state. -/
def dispatch (s : Session) (r : WireRequest) : Session × WireResponse :=
  if r.method = "initialize" then handleInitialize s r.params
  else if r.method = "prompt" then handlePrompt s r.params
  else if r.method = "cancel" then handleCancel s
  else (s, errMethodNotFound)

/-! ## Session events and reachability (spec §4.2, §5) -/

/-- Modelled from the spec: everything that can drive the session — an
incoming wire request, the Turn Execution Engine finishing the active turn
with a terminal phase, or closure of the transport stream. -/
inductive Event where
  | request (r : WireRequest)
  | turnFinished (outcome : TurnPhase)
  | streamClosed
deriving DecidableEq, Repr

/-- Modelled from the spec: the Turn Execution Engine reports the active
turn's terminal outcome; the session records it and returns to `Ready`. -/
def finishTurn (s : Session) (outcome : TurnPhase) : Session :=
  if s.state = .TurnInProgress ∧ outcome.isTerminal then
    { s with
        state := .Ready
        turns :=
          match s.turns with
          | [] => []
          | t :: rest => { t with phase := outcome } :: rest }
  else s

/-- Modelled from the spec: stream closure drives the session to
`ShuttingDown`, aborting any in-progress turn. -/
def shutdownSession (s : Session) : Session :=
  { s with
      state := .ShuttingDown
      turns :=
        match s.turns with
        | [] => []
        | t :: rest =>
          (if t.phase.isTerminal then t else { t with phase := .Cancelled })
            :: rest }

/-- One step of the session under an event. -/
def step (s : Session) (e : Event) : Session :=
  match e with
  | .request r => (dispatch s r).1
  | .turnFinished outcome => finishTurn s outcome
  | .streamClosed => shutdownSession s

/-- The session reached from process start by a sequence of events. -/
def run (es : List Event) : Session :=
  es.foldl step initialSession

/-- The number of non-terminal turns a session holds. -/
def nonTerminalTurns (s : Session) : Nat :=
  s.turns.countP (fun t => !t.phase.isTerminal)

/-- The session invariant: every turn other than the newest is terminal,
and outside `TurnInProgress` every turn (the newest included) is terminal. -/
def sessionInv (s : Session) : Prop :=
  (∀ t ∈ s.turns.tail, t.phase.isTerminal = true) ∧
  (s.state ≠ .TurnInProgress → ∀ t ∈ s.turns, t.phase.isTerminal = true)

/-! ## Print mode (spec §4.5, §6) -/

/-- Modelled from the spec: a streamed message — role plus content. -/
structure Message where
  role : String
  content : String
deriving DecidableEq, Repr

/-- Modelled from the spec: the observable outcome of one print-mode
invocation — exit code, stdout message lines, the stderr text, and whether
an uncaught crash trace was emitted. -/
structure PrintModeResult where
  exitCode : Nat
  stdoutLines : List Message
  stderr : String
  crashTrace : Bool
deriving DecidableEq, Repr

/-- Whether the first list is an initial segment of the second. -/
def charsStartWith : List Char → List Char → Bool
  | [], _ => true
  | _ :: _, [] => false
  | p :: ps, c :: cs => p == c && charsStartWith ps cs

/-- Whether the first list occurs as a contiguous run inside the second. -/
def charsContain (pat : List Char) : List Char → Bool
  | [] => charsStartWith pat []
  | c :: cs => charsStartWith pat (c :: cs) || charsContain pat cs

/-- Substring occurrence on strings. -/
def containsText (s pat : String) : Bool :=
  charsContain pat.data s.data

/-- The smoke test's recognizer for a configuration-error message on
standard error. -/
def isConfigErrorMessage (s : String) : Bool :=
  containsText s "LLM is not set" || containsText s "ConfigError" ||
    containsText s "not configured"

/-- Modelled from the spec: the one-shot print-mode run of the Turn
Execution Engine.  With a configured model each user message yields an
assistant-tagged output line; without one the engine fails fast with a
structured configuration error (non-zero exit, configuration-error message
on stderr, no uncaught crash trace). -/
def runPrintMode (modelConfigured : Bool) (agentReply : String)
    (input : List Message) : PrintModeResult :=
  if modelConfigured then
    { exitCode := 0
      stdoutLines :=
        (input.filter (fun m => m.role == "user")).map
          (fun _ => { role := "assistant", content := agentReply })
      stderr := ""
      crashTrace := false }
  else
    { exitCode := 1
      stdoutLines := []
      stderr := "ConfigError: LLM is not set, please configure a model"
      crashTrace := false }

/-! ## The `run claude` launcher, embedded from `src/kimi_cli/cli/run.py` -/

/-- Default CCR (claude-code-router) host (`_CCR_DEFAULT_HOST`). -/
def ccrDefaultHost : String := "127.0.0.1"

/-- Default CCR port (`_CCR_DEFAULT_PORT`). -/
def ccrDefaultPort : Nat := 8180

/-- The parsed contents of `~/.claude-code-router/config.json`: the `HOST`
and `PORT` keys, each possibly absent. -/
structure CcrConfigFile where
  host : Option String
  port : Option Nat
deriving DecidableEq, Repr

/-- `_get_ccr_config`: host and port from the config file or defaults; a
missing or unreadable file (`none`) falls back to the defaults. -/
def getCcrConfig : Option CcrConfigFile → String × Nat
  | none => (ccrDefaultHost, ccrDefaultPort)
  | some c => (c.host.getD ccrDefaultHost, c.port.getD ccrDefaultPort)

/-- The command-line inputs of the `claude` subcommand. -/
structure RunClaudeArgs where
  workDir : Option String
  yolo : Bool
  dangerouslySkipPermissions : Bool
  noAutoStartCcr : Bool
  extraArgs : List String
deriving DecidableEq, Repr

/-- The host-environment facts the launcher observes: where `claude` is
(`shutil.which`), whether `ccr` is installed, the CCR config file, whether
CCR already answers on its port, whether `ccr start` brings it up within the
timeout, and the clean base environment passed to the child. -/
structure HostEnvironment where
  claudePath : Option String
  ccrInstalled : Bool
  ccrConfigFile : Option CcrConfigFile
  ccrRunning : Bool
  ccrStartSucceeds : Bool
  cleanEnv : List (String × String)
deriving DecidableEq, Repr

/-- How one launcher invocation ends: a `typer.Exit` with a code and stderr
lines, or `os.execvpe` replacing the process with the given argv and
environment. -/
inductive RunOutcome where
  | exited (code : Nat) (stderrLines : List String)
  | launched (argv : List String) (env : List (String × String))
deriving DecidableEq, Repr

/-- The launcher's observable behaviour: whether a `ccr start` subprocess
was spawned, and how the invocation ended. -/
structure RunTrace where
  startedCcrSubprocess : Bool
  outcome : RunOutcome
deriving DecidableEq, Repr

/-- Python dict update: entries of `updates` override entries of `base`. -/
def envUpdate (base updates : List (String × String)) :
    List (String × String) :=
  base.filter (fun kv => !updates.any (fun u => u.1 == kv.1)) ++ updates

/-- Environment lookup by key. -/
def envLookup (env : List (String × String)) (k : String) : Option String :=
  (env.find? (fun kv => kv.1 == k)).map (fun kv => kv.2)

/-- The environment overrides `claude` builds before exec
(`run.py` lines 190-203). -/
def claudeEnvUpdates (baseUrl : String) : List (String × String) :=
  [("ANTHROPIC_BASE_URL", baseUrl),
   ("ANTHROPIC_API_KEY", ""),
   ("ANTHROPIC_AUTH_TOKEN", "claude-code-router"),
   ("ANTHROPIC_DEFAULT_OPUS_MODEL", "kimi-k2.5"),
   ("ANTHROPIC_DEFAULT_SONNET_MODEL", "kimi-k2.5"),
   ("ANTHROPIC_DEFAULT_HAIKU_MODEL", "kimi-k2.5"),
   ("CLAUDE_CODE_SUBAGENT_MODEL", "kimi-k2.5"),
   ("CCR_PROVIDER", "local")]

/-- The argv `claude` builds (`run.py` lines 205-218). -/
def claudeArgv (claudePath : String) (args : RunClaudeArgs) : List String :=
  [claudePath] ++
    (if args.yolo then ["--yolo"] else []) ++
    (if args.dangerouslySkipPermissions then
      ["--dangerously-skip-permissions"] else []) ++
    (match args.workDir with
     | some w => ["--work-dir", w]
     | none => []) ++
    args.extraArgs

/-- The `claude` subcommand (`run.py` lines 145-229): check for the
`claude` and `ccr` binaries (exit 1 with a stderr message when missing),
read the CCR config, ensure CCR is running (starting it unless
`--no-auto-start-ccr`), then exec `claude` with the patched environment. -/
def runClaude (henv : HostEnvironment) (args : RunClaudeArgs) : RunTrace :=
  match henv.claudePath with
  | none =>
    ⟨false, .exited 1
      ["Error: Claude Code not found. Install it with:",
       "  npm install -g @anthropic-ai/claude-code"]⟩
  | some claudePath =>
    if !henv.ccrInstalled then
      ⟨false, .exited 1
        ["Error: claude-code-router not found. Install it with:",
         "  pip install claude-code-router"]⟩
    else
      let hp := getCcrConfig henv.ccrConfigFile
      let baseUrl := "http://" ++ hp.1 ++ ":" ++ toString hp.2 ++ "/v1"
      let launch : RunOutcome :=
        .launched (claudeArgv claudePath args)
          (envUpdate henv.cleanEnv (claudeEnvUpdates baseUrl))
      if henv.ccrRunning then ⟨false, launch⟩
      else if args.noAutoStartCcr then
        ⟨false, .exited 1
          ["Error: claude-code-router is not running at " ++ baseUrl ++ ".",
           "Start it with: ccr start"]⟩
      else if henv.ccrStartSucceeds then ⟨true, launch⟩
      else
        ⟨true, .exited 1
          ["Error: Failed to start claude-code-router.",
           "Start it manually with: ccr start"]⟩

/-- The `gt_notify` descriptor submitted by the wire smoke test. -/
def gtNotifyDescriptor : ExternalToolDescriptor :=
  ⟨"gt_notify", "Send notification to Gas Town",
   ⟨"object", [⟨"message", "string"⟩], ["message"]⟩⟩

/-- The session reached by the smoke test's `initialize` request. -/
def readySession : Session :=
  (dispatch initialSession
    ⟨"initialize",
     .initP (11 / 10) "gastown-ci" "0.1.0" [gtNotifyDescriptor]⟩).1

/-! ## Registry lemmas -/

/-- A list containing two distinct elements has length at least two. -/
lemma two_le_length_of_mem_ne {α : Type} {a b : α} {l : List α}
    (ha : a ∈ l) (hb : b ∈ l) (hne : a ≠ b) : 2 ≤ l.length := by
  obtain ⟨s, t, rfl⟩ := List.append_of_mem ha
  rcases List.mem_append.mp hb with hbs | hbt
  · have := List.length_pos.mpr (List.ne_nil_of_mem hbs)
    simp [List.length_append]
    omega
  · rcases List.mem_cons.mp hbt with hba | hbt
    · exact absurd hba.symm hne
    · have := List.length_pos.mpr (List.ne_nil_of_mem hbt)
      simp [List.length_append]
      omega

/-- Characterization of acceptance: a candidate is accepted exactly when its
name is non-empty and unique within the batch, does not collide with a
reserved name, and its schema is well formed. -/
lemma toolAccepted_iff (batch : List ExternalToolDescriptor)
    (t : ExternalToolDescriptor) :
    toolAccepted batch t = true ↔
      t.name ≠ "" ∧ batch.countP (fun u => u.name == t.name) = 1 ∧
        t.name ∉ reservedToolNames ∧
        schemaWellFormed t.parameters = true := by
  unfold toolAccepted validateTool
  split_ifs with h1 h2 h3 h4 <;> simp_all

/-- Accepted and rejected names together are a permutation of the names of
the submitted candidates: every candidate is accounted for exactly once. -/
lemma validateTools_perm (batch : List ExternalToolDescriptor) :
    ((validateTools batch).1 ++
        (validateTools batch).2.map Prod.fst).Perm
      (batch.map (fun t => t.name)) := by
  unfold validateTools
  simp only [List.map_map]
  have hcomp : (Prod.fst ∘ fun t : ExternalToolDescriptor =>
      (t.name, (validateTool batch t).getD "rejected")) =
      fun t => t.name := rfl
  rw [hcomp, ← List.map_append]
  exact (List.filter_append_perm (fun t => toolAccepted batch t) batch).map _

/-- No name appears both among the accepted and among the rejected. -/
lemma validateTools_disjoint (batch : List ExternalToolDescriptor) :
    (validateTools batch).1.Disjoint
      ((validateTools batch).2.map Prod.fst) := by
  intro n h1 h2
  simp only [validateTools, List.mem_map, List.mem_filter] at h1 h2
  obtain ⟨t, ⟨htm, hta⟩, htn⟩ := h1
  obtain ⟨w, ⟨u, ⟨hum, hur⟩, huw⟩, hwn⟩ := h2
  have hun : u.name = n := by rw [← huw] at hwn; exact hwn
  rw [toolAccepted_iff] at hta
  obtain ⟨hne, hcount, hres, hschema⟩ := hta
  have hu : ¬(u.name ≠ "" ∧ batch.countP (fun v => v.name == u.name) = 1 ∧
      u.name ∉ reservedToolNames ∧
      schemaWellFormed u.parameters = true) := by
    rw [← toolAccepted_iff]
    simp only [Bool.not_eq_true'] at hur
    simp [hur]
  have hnames : u.name = t.name := by rw [hun, htn]
  push_neg at hu
  have hus : ¬schemaWellFormed u.parameters = true := by
    apply hu
    · rw [hnames]; exact hne
    · rw [hnames]; exact hcount
    · rw [hnames]; exact hres
  have hut : u ≠ t := fun he => hus (he ▸ hschema)
  have h2le : 2 ≤ batch.countP (fun v => v.name == t.name) := by
    rw [List.countP_eq_length_filter]
    refine two_le_length_of_mem_ne ?_ ?_ hut
    · exact List.mem_filter.mpr ⟨hum, by simp [hnames]⟩
    · exact List.mem_filter.mpr ⟨htm, by simp⟩
  omega

/-! ## Session invariant -/

/-- The initial session satisfies the invariant. -/
lemma sessionInv_initial : sessionInv initialSession := by
  constructor <;> simp [initialSession]

/-- Every step of the session preserves the invariant. -/
lemma sessionInv_step (s : Session) (e : Event) (h : sessionInv s) :
    sessionInv (step s e) := by
  obtain ⟨h1, h2⟩ := h
  cases e with
  | request r =>
    show sessionInv (dispatch s r).1
    unfold dispatch
    split_ifs with hi hp hc
    · unfold handleInitialize
      cases hs : s.state with
      | Uninitialized =>
        cases r.params with
        | initP v cn cv tools =>
          refine ⟨by simpa using h1, fun _ => ?_⟩
          simpa using h2 (by simp [hs])
        | promptP c => exact ⟨h1, h2⟩
        | noParams => exact ⟨h1, h2⟩
      | Ready => exact ⟨h1, h2⟩
      | TurnInProgress => exact ⟨h1, h2⟩
      | ShuttingDown => exact ⟨h1, h2⟩
    · unfold handlePrompt
      cases hs : s.state with
      | Ready =>
        cases r.params with
        | initP v cn cv tools => exact ⟨h1, h2⟩
        | promptP c =>
          refine ⟨?_, fun hst => ?_⟩
          · simpa using h2 (by simp [hs])
          · simp at hst
        | noParams => exact ⟨h1, h2⟩
      | Uninitialized => exact ⟨h1, h2⟩
      | TurnInProgress => exact ⟨h1, h2⟩
      | ShuttingDown => exact ⟨h1, h2⟩
    · unfold handleCancel
      cases hs : s.state with
      | TurnInProgress =>
        cases ht : s.turns with
        | nil => exact ⟨by simp, fun hst => by simp [hs] at hst⟩
        | cons t rest =>
          refine ⟨?_, fun hst => by simp [hs] at hst⟩
          simpa using (ht ▸ h1 : ∀ u ∈ (t :: rest).tail, u.phase.isTerminal = true)
      | Uninitialized => exact ⟨h1, h2⟩
      | Ready => exact ⟨h1, h2⟩
      | ShuttingDown => exact ⟨h1, h2⟩
    · exact ⟨h1, h2⟩
  | turnFinished outcome =>
    show sessionInv (finishTurn s outcome)
    unfold finishTurn
    split_ifs with hc
    · obtain ⟨hs, hterm⟩ := hc
      cases ht : s.turns with
      | nil => exact ⟨by simp, fun _ => by simp⟩
      | cons t rest =>
        have hrest : ∀ u ∈ rest, u.phase.isTerminal = true := by
          simpa using (ht ▸ h1 : ∀ u ∈ (t :: rest).tail, u.phase.isTerminal = true)
        refine ⟨by simpa using hrest, fun _ => ?_⟩
        intro u hu
        rcases List.mem_cons.mp hu with rfl | hur
        · exact hterm
        · exact hrest u hur
    · exact ⟨h1, h2⟩
  | streamClosed =>
    show sessionInv (shutdownSession s)
    unfold shutdownSession
    cases ht : s.turns with
    | nil => exact ⟨by simp, fun _ => by simp⟩
    | cons t rest =>
      have hrest : ∀ u ∈ rest, u.phase.isTerminal = true := by
        simpa using (ht ▸ h1 : ∀ u ∈ (t :: rest).tail, u.phase.isTerminal = true)
      refine ⟨by simpa using hrest, fun _ => ?_⟩
      intro u hu
      rcases List.mem_cons.mp hu with rfl | hur
      · split
        · assumption
        · rfl
      · exact hrest u hur

/-- The invariant holds along any event sequence. -/
lemma sessionInv_foldl (es : List Event) (s : Session) (h : sessionInv s) :
    sessionInv (es.foldl step s) := by
  induction es generalizing s with
  | nil => exact h
  | cons e es ih => exact ih _ (sessionInv_step s e h)

/-- The invariant bounds the number of non-terminal turns by one. -/
lemma nonTerminalTurns_le_one (s : Session) (h : sessionInv s) :
    nonTerminalTurns s ≤ 1 := by
  obtain ⟨h1, _⟩ := h
  unfold nonTerminalTurns
  cases ht : s.turns with
  | nil => simp
  | cons t rest =>
    have hrest : rest.countP (fun u => !u.phase.isTerminal) = 0 := by
      rw [List.countP_eq_zero]
      intro u hu
      have := (ht ▸ h1 : ∀ u ∈ (t :: rest).tail, u.phase.isTerminal = true)
        u (by simpa using hu)
      simp [this]
    rw [List.countP_cons, hrest]
    split <;> simp

/-! ## The initialize handler on an uninitialized session -/

/-- On an uninitialized session, `initialize` negotiates and succeeds,
returning the session's own protocol version, identity, the full slash
command catalog, and the registry validation outcome. -/
lemma dispatch_initialize_uninitialized (s : Session)
    (h : s.state = .Uninitialized) (v : ℚ) (cn cv : String)
    (tools : List ExternalToolDescriptor) :
    dispatch s ⟨"initialize", .initP v cn cv tools⟩ =
      ({ s with
          state := .Ready
          negotiatedVersion := some sessionProtocolVersion
          clientName := some cn
          clientVersion := some cv
          acceptedTools := (validateTools tools).1
          rejectedTools := (validateTools tools).2 },
       .initResult sessionProtocolVersion (serverName, serverVersion)
         slashCommandCatalog (validateTools tools).1
         (validateTools tools).2) := by
  unfold dispatch
  rw [if_pos rfl]
  unfold handleInitialize
  rw [h]

/-- A cancel received while no turn is in progress fails with the -32000
application error and leaves the session unchanged. -/
lemma dispatch_cancel_no_turn (s : Session)
    (h : s.state ≠ .TurnInProgress) (p : Params) :
    dispatch s ⟨"cancel", p⟩ = (s, errNoTurn) := by
  cases hs : s.state with
  | TurnInProgress => exact absurd hs h
  | Uninitialized => simp [dispatch, handleCancel, hs]
  | Ready => simp [dispatch, handleCancel, hs]
  | ShuttingDown => simp [dispatch, handleCancel, hs]

/-- An `initialize` received outside `Uninitialized` fails with the
already-initialized application error and leaves the session unchanged. -/
lemma dispatch_initialize_not_uninitialized (s : Session)
    (h : s.state ≠ .Uninitialized) (p : Params) :
    dispatch s ⟨"initialize", p⟩ = (s, errAlreadyInitialized) := by
  unfold dispatch
  rw [if_pos rfl]
  unfold handleInitialize
  cases hs : s.state with
  | Uninitialized => exact absurd hs h
  | Ready => rfl
  | TurnInProgress => rfl
  | ShuttingDown => rfl

/-! ## Environment-lookup lemmas for the launcher -/

/-- `find?` skips a block in which nothing matches. -/
lemma find?_append_of_none {α : Type} (p : α → Bool) (l1 l2 : List α)
    (h : l1.find? p = none) : (l1 ++ l2).find? p = l2.find? p := by
  induction l1 with
  | nil => rfl
  | cons a l ih =>
    rw [List.cons_append]
    cases hp : p a with
    | true =>
      rw [List.find?_cons_of_pos _ hp] at h
      exact absurd h (by simp)
    | false =>
      rw [List.find?_cons_of_neg _ (by simp [hp])] at h
      rw [List.find?_cons_of_neg _ (by simp [hp])]
      exact ih h

/-- Looking up a key that the update block defines reads the update block,
whatever the base environment held. -/
lemma envLookup_envUpdate (base updates : List (String × String))
    (k : String) (h : updates.any (fun u => u.1 == k) = true) :
    envLookup (envUpdate base updates) k = envLookup updates k := by
  unfold envLookup envUpdate
  congr 1
  apply find?_append_of_none
  rw [List.find?_eq_none]
  intro kv hkv hpk
  obtain ⟨_, hq⟩ := List.mem_filter.mp hkv
  simp only [Bool.not_eq_eq_eq_not, Bool.not_true] at hq
  have hk : kv.1 = k := by simpa using hpk
  rw [hk] at hq
  rw [h] at hq
  simp at hq

/-- In every branch of the launcher that reaches the exec point, the child
environment is the clean environment overridden by the CCR redirection
block built from the configured (or default) host and port. -/
lemma runClaude_launched_env (henv : HostEnvironment)
    (args : RunClaudeArgs) (argv : List String)
    (env : List (String × String))
    (h : (runClaude henv args).outcome = .launched argv env) :
    env = envUpdate henv.cleanEnv (claudeEnvUpdates
      ("http://" ++ (getCcrConfig henv.ccrConfigFile).1 ++ ":" ++
        toString (getCcrConfig henv.ccrConfigFile).2 ++ "/v1")) := by
  cases hcp : henv.claudePath with
  | none => simp [runClaude, hcp] at h
  | some cp =>
    by_cases h1 : henv.ccrInstalled = true
    · by_cases h2 : henv.ccrRunning = true
      · simp [runClaude, hcp, h1, h2] at h
        exact h.2.symm
      · by_cases h3 : args.noAutoStartCcr = true
        · simp [runClaude, hcp, h1, h2, h3] at h
        · by_cases h4 : henv.ccrStartSucceeds = true
          · simp [runClaude, hcp, h1, h2, h3, h4] at h
            exact h.2.symm
          · simp [runClaude, hcp, h1, h2, h3, h4] at h
    · simp [runClaude, hcp, h1] at h

/-! ## Claim theorems -/

/-- C1: for every valid `initialize` request the response's protocol
version is numerically at least the session's documented minimum, its slash
command list is non-empty, and the accepted and rejected external tool
lists are disjoint and together account for every submitted tool name
exactly once. -/
theorem c1_initialize_response_contract (s : Session)
    (h : s.state = .Uninitialized) (v : ℚ) (cn cv : String)
    (tools : List ExternalToolDescriptor) :
    ∃ pv acc rej,
      (dispatch s ⟨"initialize", .initP v cn cv tools⟩).2 =
        .initResult pv (serverName, serverVersion) slashCommandCatalog
          acc rej ∧
      minSupportedVersion ≤ pv ∧
      slashCommandCatalog ≠ [] ∧
      (acc ++ rej.map Prod.fst).Perm (tools.map (fun t => t.name)) ∧
      acc.Disjoint (rej.map Prod.fst) := by
  refine ⟨sessionProtocolVersion, (validateTools tools).1,
    (validateTools tools).2, ?_, le_refl _, by simp [slashCommandCatalog],
    validateTools_perm tools, validateTools_disjoint tools⟩
  rw [dispatch_initialize_uninitialized s h]

/-- Witness for C1: the smoke test's `initialize` request against the fresh
session. -/
theorem c1_initialize_response_contract_witness :
    initialSession.state = .Uninitialized ∧
    ∃ pv acc rej,
      (dispatch initialSession
          ⟨"initialize",
           .initP (11 / 10) "gastown-ci" "0.1.0" [gtNotifyDescriptor]⟩).2 =
        .initResult pv (serverName, serverVersion) slashCommandCatalog
          acc rej ∧
      minSupportedVersion ≤ pv ∧
      slashCommandCatalog ≠ [] ∧
      (acc ++ rej.map Prod.fst).Perm
        ([gtNotifyDescriptor].map (fun t => t.name)) ∧
      acc.Disjoint (rej.map Prod.fst) :=
  ⟨rfl, c1_initialize_response_contract initialSession rfl (11 / 10)
    "gastown-ci" "0.1.0" [gtNotifyDescriptor]⟩

/-- C2: along every event sequence from process start, the session never
holds more than one non-terminal turn. -/
theorem c2_at_most_one_active_turn (es : List Event) :
    nonTerminalTurns (run es) ≤ 1 :=
  nonTerminalTurns_le_one _
    (sessionInv_foldl es initialSession sessionInv_initial)

/-- C6: every candidate whose name is non-empty and unique within the
batch, avoids reserved names, and carries a well-formed object schema is
accepted and never rejected; every invalid candidate lands in the rejected
list with a machine-readable reason. -/
theorem c6_tool_validation (batch : List ExternalToolDescriptor)
    (t : ExternalToolDescriptor) (hmem : t ∈ batch) (hname : t.name ≠ "")
    (huniq : batch.countP (fun u => u.name == t.name) = 1)
    (hres : t.name ∉ reservedToolNames)
    (hschema : schemaWellFormed t.parameters = true) :
    t.name ∈ (validateTools batch).1 ∧
    t.name ∉ (validateTools batch).2.map Prod.fst ∧
    (∀ u ∈ batch, toolAccepted batch u = false →
      ∃ r, (u.name, r) ∈ (validateTools batch).2) := by
  have hacc : toolAccepted batch t = true :=
    (toolAccepted_iff batch t).mpr ⟨hname, huniq, hres, hschema⟩
  have hmem1 : t.name ∈ (validateTools batch).1 := by
    simp only [validateTools]
    exact List.mem_map.mpr ⟨t, List.mem_filter.mpr ⟨hmem, hacc⟩, rfl⟩
  refine ⟨hmem1, fun hcontra => validateTools_disjoint batch hmem1 hcontra,
    fun u hu hru => ⟨(validateTool batch u).getD "rejected", ?_⟩⟩
  simp only [validateTools]
  exact List.mem_map.mpr ⟨u, List.mem_filter.mpr ⟨hu, by simp [hru]⟩, rfl⟩

/-- Witness for C6: the `gt_notify` descriptor of the smoke test is
accepted and absent from the rejected list. -/
theorem c6_tool_validation_witness :
    "gt_notify" ∈ (validateTools [gtNotifyDescriptor]).1 ∧
    "gt_notify" ∉ (validateTools [gtNotifyDescriptor]).2.map Prod.fst :=
  ⟨(c6_tool_validation [gtNotifyDescriptor] gtNotifyDescriptor (by decide)
      (by decide) (by decide) (by decide) (by decide)).1,
   (c6_tool_validation [gtNotifyDescriptor] gtNotifyDescriptor (by decide)
      (by decide) (by decide) (by decide) (by decide)).2.1⟩

/-- C7: the handshake is never refused — for every requested protocol
version, including one below the minimum supported, `initialize` on a fresh
session answers successfully with the session's own supported version. -/
theorem c7_handshake_never_refused (s : Session)
    (h : s.state = .Uninitialized) (v : ℚ) (cn cv : String)
    (tools : List ExternalToolDescriptor) :
    (∃ acc rej,
      (dispatch s ⟨"initialize", .initP v cn cv tools⟩).2 =
        .initResult sessionProtocolVersion (serverName, serverVersion)
          slashCommandCatalog acc rej) ∧
    ∀ c msg,
      (dispatch s ⟨"initialize", .initP v cn cv tools⟩).2 ≠
        .error c msg := by
  rw [dispatch_initialize_uninitialized s h]
  exact ⟨⟨_, _, rfl⟩, fun c msg => by simp⟩

/-- Witness for C7: a requested version strictly below the minimum is still
answered with a successful result. -/
theorem c7_handshake_never_refused_witness :
    (1 : ℚ) < minSupportedVersion ∧
    initialSession.state = .Uninitialized ∧
    ((∃ acc rej,
        (dispatch initialSession
            ⟨"initialize", .initP 1 "gastown-ci" "0.1.0" []⟩).2 =
          .initResult sessionProtocolVersion (serverName, serverVersion)
            slashCommandCatalog acc rej) ∧
      ∀ c msg,
        (dispatch initialSession
            ⟨"initialize", .initP 1 "gastown-ci" "0.1.0" []⟩).2 ≠
          .error c msg) :=
  ⟨by norm_num [minSupportedVersion], rfl,
   c7_handshake_never_refused initialSession rfl 1 "gastown-ci" "0.1.0" []⟩

/-- C3: a cancel received with no turn in progress fails with application
error -32000 and changes nothing; a second cancel yields the very same
error, and a subsequent `initialize` is still correctly rejected. -/
theorem c3_cancel_idempotent_error (s : Session)
    (h : s.state ≠ .TurnInProgress) :
    dispatch s ⟨"cancel", .noParams⟩ = (s, errNoTurn) ∧
    dispatch (dispatch s ⟨"cancel", .noParams⟩).1 ⟨"cancel", .noParams⟩ =
      (s, errNoTurn) ∧
    (s.state ≠ .Uninitialized → ∀ p,
      dispatch
        (dispatch (dispatch s ⟨"cancel", .noParams⟩).1
            ⟨"cancel", .noParams⟩).1
        ⟨"initialize", p⟩ =
        (s, errAlreadyInitialized)) := by
  have h1 := dispatch_cancel_no_turn s h .noParams
  have hfst : (dispatch s ⟨"cancel", .noParams⟩).1 = s := by rw [h1]
  refine ⟨h1, ?_, ?_⟩
  · rw [hfst]; exact h1
  · intro hu p
    rw [hfst, hfst]
    exact dispatch_initialize_not_uninitialized s hu p

/-- Witness for C3: both cancels on the initialized session yield -32000
unchanged, and the follow-up `initialize` is rejected. -/
theorem c3_cancel_idempotent_error_witness :
    readySession.state ≠ .TurnInProgress ∧
    dispatch readySession ⟨"cancel", .noParams⟩ =
      (readySession, errNoTurn) ∧
    dispatch (dispatch readySession ⟨"cancel", .noParams⟩).1
        ⟨"cancel", .noParams⟩ =
      (readySession, errNoTurn) ∧
    dispatch
        (dispatch (dispatch readySession ⟨"cancel", .noParams⟩).1
            ⟨"cancel", .noParams⟩).1
        ⟨"initialize", .noParams⟩ =
      (readySession, errAlreadyInitialized) := by
  have h := c3_cancel_idempotent_error readySession (by decide)
  exact ⟨by decide, h.1, h.2.1, h.2.2 (by decide) .noParams⟩

/-- C4: every unrecognized method fails with the JSON-RPC -32601 method-not-
found protocol error, in every session state, with no state change. -/
theorem c4_unknown_method (m : String) (h : m ∉ recognizedMethods)
    (s : Session) (p : Params) :
    dispatch s ⟨m, p⟩ = (s, errMethodNotFound) := by
  simp only [recognizedMethods, List.mem_cons, List.not_mem_nil,
    or_false] at h
  push_neg at h
  obtain ⟨h1, h2, h3⟩ := h
  simp [dispatch, h1, h2, h3]

/-- Witness for C4: the smoke test's `nonexistent_method` request. -/
theorem c4_unknown_method_witness :
    "nonexistent_method" ∉ recognizedMethods ∧
    dispatch initialSession ⟨"nonexistent_method", .noParams⟩ =
      (initialSession, errMethodNotFound) :=
  ⟨by decide,
   c4_unknown_method "nonexistent_method" (by decide) initialSession
     .noParams⟩

/-- Counterexample to C5 as stated: `cancel` is a non-initialize method
received before `initialize` completes, yet it fails with the -32000
no-turn-in-progress application error rather than with an error indicating
the session is not ready. -/
theorem c5_counterexample_cancel_before_init :
    initialSession.state = .Uninitialized ∧
    (dispatch initialSession ⟨"cancel", .noParams⟩).2 = errNoTurn ∧
    errNoTurn ≠ errNotReady :=
  ⟨rfl, by decide, by decide⟩

/-- C5 (amended): `initialize` is accepted only in `Uninitialized` — in any
other state it fails with the already-initialized application error; before
`initialize` completes the prompt/turn-submission method fails with the
not-ready application error, while `cancel` (which is valid in any state by
its own contract) fails with the -32000 no-turn application error. -/
theorem c5_initialize_gating (s : Session) (p : Params) :
    (s.state ≠ .Uninitialized →
      dispatch s ⟨"initialize", p⟩ = (s, errAlreadyInitialized)) ∧
    (s.state = .Uninitialized →
      dispatch s ⟨"prompt", p⟩ = (s, errNotReady) ∧
      dispatch s ⟨"cancel", p⟩ = (s, errNoTurn)) := by
  refine ⟨fun h => dispatch_initialize_not_uninitialized s h p,
    fun h => ⟨?_, ?_⟩⟩
  · simp [dispatch, handlePrompt, h]
  · exact dispatch_cancel_no_turn s (by rw [h]; decide) p

/-- Witness for C5 (amended): the initialized session rejects a second
`initialize`; the fresh session answers a prompt with not-ready. -/
theorem c5_initialize_gating_witness :
    readySession.state ≠ .Uninitialized ∧
    dispatch readySession ⟨"initialize", .noParams⟩ =
      (readySession, errAlreadyInitialized) ∧
    initialSession.state = .Uninitialized ∧
    dispatch initialSession ⟨"prompt", .promptP "hi"⟩ =
      (initialSession, errNotReady) :=
  ⟨by decide,
   (c5_initialize_gating readySession .noParams).1 (by decide),
   rfl,
   ((c5_initialize_gating initialSession (.promptP "hi")).2 rfl).1⟩

/-- C8: in print mode with no usable model configured, the process exits
with a non-zero status, writes a recognizable configuration-error message
to standard error, and emits no uncaught crash trace. -/
theorem c8_print_mode_config_error (input : List Message) (reply : String) :
    (runPrintMode false reply input).exitCode ≠ 0 ∧
    isConfigErrorMessage (runPrintMode false reply input).stderr = true ∧
    (runPrintMode false reply input).crashTrace = false := by
  refine ⟨by simp [runPrintMode], ?_, by simp [runPrintMode]⟩
  show isConfigErrorMessage
    "ConfigError: LLM is not set, please configure a model" = true
  decide

/-- C9: whenever the launcher reaches the exec point, the environment it
passes maps `ANTHROPIC_BASE_URL` to `http://host:port/v1` with host and
port from the CCR config (defaults `127.0.0.1:8180`), `ANTHROPIC_API_KEY`
to the empty string, and the three default-model variables plus the
subagent-model variable to `kimi-k2.5`, for every combination of flags. -/
theorem c9_exec_environment (henv : HostEnvironment)
    (args : RunClaudeArgs) (argv : List String)
    (env : List (String × String))
    (h : (runClaude henv args).outcome = .launched argv env) :
    envLookup env "ANTHROPIC_BASE_URL" =
      some ("http://" ++ (getCcrConfig henv.ccrConfigFile).1 ++ ":" ++
        toString (getCcrConfig henv.ccrConfigFile).2 ++ "/v1") ∧
    envLookup env "ANTHROPIC_API_KEY" = some "" ∧
    envLookup env "ANTHROPIC_DEFAULT_OPUS_MODEL" = some "kimi-k2.5" ∧
    envLookup env "ANTHROPIC_DEFAULT_SONNET_MODEL" = some "kimi-k2.5" ∧
    envLookup env "ANTHROPIC_DEFAULT_HAIKU_MODEL" = some "kimi-k2.5" ∧
    envLookup env "CLAUDE_CODE_SUBAGENT_MODEL" = some "kimi-k2.5" ∧
    (henv.ccrConfigFile = none →
      envLookup env "ANTHROPIC_BASE_URL" =
        some "http://127.0.0.1:8180/v1") := by
  have he := runClaude_launched_env henv args argv env h
  subst he
  refine ⟨(envLookup_envUpdate _ _ _ (by rfl)).trans rfl,
    (envLookup_envUpdate _ _ _ (by rfl)).trans rfl,
    (envLookup_envUpdate _ _ _ (by rfl)).trans rfl,
    (envLookup_envUpdate _ _ _ (by rfl)).trans rfl,
    (envLookup_envUpdate _ _ _ (by rfl)).trans rfl,
    (envLookup_envUpdate _ _ _ (by rfl)).trans rfl,
    fun hc => ?_⟩
  rw [hc]
  exact (envLookup_envUpdate _ _ _ (by rfl)).trans rfl

/-- Witness for C9: a launch with CCR already running, default config, an
empty clean environment and default flags. -/
theorem c9_exec_environment_witness :
    (runClaude ⟨some "/usr/bin/claude", true, none, true, true, []⟩
        ⟨none, false, false, false, []⟩).outcome =
      .launched ["/usr/bin/claude"]
        (claudeEnvUpdates "http://127.0.0.1:8180/v1") ∧
    envLookup (claudeEnvUpdates "http://127.0.0.1:8180/v1")
        "ANTHROPIC_BASE_URL" = some "http://127.0.0.1:8180/v1" ∧
    envLookup (claudeEnvUpdates "http://127.0.0.1:8180/v1")
        "ANTHROPIC_API_KEY" = some "" ∧
    envLookup (claudeEnvUpdates "http://127.0.0.1:8180/v1")
        "ANTHROPIC_DEFAULT_OPUS_MODEL" = some "kimi-k2.5" ∧
    envLookup (claudeEnvUpdates "http://127.0.0.1:8180/v1")
        "CLAUDE_CODE_SUBAGENT_MODEL" = some "kimi-k2.5" :=
  have h := c9_exec_environment
    ⟨some "/usr/bin/claude", true, none, true, true, []⟩
    ⟨none, false, false, false, []⟩ ["/usr/bin/claude"]
    (claudeEnvUpdates "http://127.0.0.1:8180/v1") rfl
  ⟨rfl, h.1, h.2.1, h.2.2.1, h.2.2.2.2.2.1⟩

/-- C10: if the `claude` binary or the `ccr` binary is missing from PATH,
the launcher exits with code 1 and an error message, spawns no `ccr start`
subprocess, and never reaches the exec point. -/
theorem c10_missing_binary_exits (henv : HostEnvironment)
    (args : RunClaudeArgs)
    (h : henv.claudePath = none ∨ henv.ccrInstalled = false) :
    (runClaude henv args).startedCcrSubprocess = false ∧
    ((runClaude henv args).outcome =
        .exited 1 ["Error: Claude Code not found. Install it with:",
          "  npm install -g @anthropic-ai/claude-code"] ∨
      (runClaude henv args).outcome =
        .exited 1 ["Error: claude-code-router not found. Install it with:",
          "  pip install claude-code-router"]) ∧
    ∀ argv env, (runClaude henv args).outcome ≠ .launched argv env := by
  rcases h with hc | hc
  · refine ⟨?_, Or.inl ?_, fun argv env => ?_⟩ <;> simp [runClaude, hc]
  · cases hcp : henv.claudePath with
    | none =>
      refine ⟨?_, Or.inl ?_, fun argv env => ?_⟩ <;> simp [runClaude, hcp]
    | some cp =>
      refine ⟨?_, Or.inr ?_, fun argv env => ?_⟩ <;>
        simp [runClaude, hcp, hc]

/-- Witness for C10: the launcher with no `claude` binary on PATH. -/
theorem c10_missing_binary_exits_witness :
    (runClaude ⟨none, true, none, true, true, []⟩
        ⟨none, false, false, false, []⟩).startedCcrSubprocess = false ∧
    ((runClaude ⟨none, true, none, true, true, []⟩
          ⟨none, false, false, false, []⟩).outcome =
        .exited 1 ["Error: Claude Code not found. Install it with:",
          "  npm install -g @anthropic-ai/claude-code"] ∨
      (runClaude ⟨none, true, none, true, true, []⟩
          ⟨none, false, false, false, []⟩).outcome =
        .exited 1 ["Error: claude-code-router not found. Install it with:",
          "  pip install claude-code-router"]) ∧
    ∀ argv env,
      (runClaude ⟨none, true, none, true, true, []⟩
          ⟨none, false, false, false, []⟩).outcome ≠
        .launched argv env :=
  c10_missing_binary_exits ⟨none, true, none, true, true, []⟩
    ⟨none, false, false, false, []⟩ (Or.inl rfl)

end Kimigas
